import Mathlib

/-!
# Verification of the LibDS core (Sockets.cpp and DS_Protocol2015.cpp)

A shallow embedding of the two source files of the repository:

* `Sockets.cpp` — the parallel-socket LAN-scan engine (`Sockets` class):
  candidate-address rotation (`refreshAddressList`), robot egress
  (`sendToRobot`), peer acquisition (`readRobotSocket`, `setRobotAddress`)
  and the local-network sweep (`generateLocalNetworkAddresses`).
* `DS_Protocol2015.cpp` — the 2015 control-protocol codec
  (`DS_Protocol2015` class): outbound client packets
  (`generateClientPacket`, `generateJoystickData`, `getJoystickSize`) and
  the inbound decoder (`readRobotData`).

Qt's stateful socket objects are embedded as explicit state records; a
member function becomes a Lean function from the state (plus its source
arguments) to the updated state together with the list of datagrams sent
or signals emitted during the call.  C++ `int` members are embedded as
`Int` (or as `Nat` where the source provably keeps them non-negative),
C++ truncating division as `Int.tdiv`/`Int.tmod`, and `double`
computations as exact rational arithmetic (every value that appears in
the claims is integral, so no rounding is lost).
-/

namespace LibDS

/-! ## Sockets.cpp — the socket manager -/

/-- Modelled from the spec: the `DISABLED_PORT` sentinel is declared in a
header that is not among the sources; the spec constrains real ports to
`1..65535`, so the sentinel is embedded as `0`.  No claim depends on its
numeric value, only on comparisons against it. -/
def DISABLED_PORT : Int := 0

/-- One `QNetworkAddressEntry` of a host interface: its textual IP and
whether `QHostAddress::isNull()` holds for it. -/
structure AddressEntry where
  ipString : String
  isNull : Bool
deriving DecidableEq, Repr

/-- One `QNetworkInterface`: the `IsUp` / `IsRunning` flag bits and the
list of its address entries. -/
structure NetInterface where
  isUp : Bool
  isRunning : Bool
  entries : List AddressEntry
deriving DecidableEq, Repr

/-- The state of a `Sockets` object.  Pointer members stand for whether
the pointed-to socket exists (`robotSender`); the pool of parallel
receiver sockets (`m_robotInputSockets`) is embedded as the list of the
current binding of each slot (`none` = not yet bound).  The parallel
sender list only chooses which socket carries a fan-out datagram, never
its destination, so it needs no state beyond the pool length. -/
structure SocketsState where
  /-- `m_iterator` — starts at 0 and is only ever set to 0 or increased
  by `socketCount() ≥ 1`, hence embedded as `Nat`. -/
  iterator : Nat
  /-- `m_socketCount` — the custom socket-count override. -/
  customSocketCount : Int
  /-- `m_robotIp`. -/
  robotIp : String
  /-- `m_robotIpList`. -/
  robotIpList : List String
  /-- `m_robotInput`. -/
  robotInput : Int
  /-- `m_robotOutput`. -/
  robotOutput : Int
  /-- Whether `m_robotSender` is non-null. -/
  robotSender : Bool
  /-- Binding of each receiver of `m_robotInputSockets`. -/
  pool : List (Option (String × Int))
deriving DecidableEq, Repr

/-- `Sockets::socketCount()`:
`customSocketCount() > 0 ? customSocketCount() : qMin(72, qMax(count/6, 1))`,
then `qMin(count, 128)`. -/
def socketCount (s : SocketsState) : Nat :=
  let count : Nat :=
    if s.customSocketCount > 0 then s.customSocketCount.toNat
    else min 72 (max (s.robotIpList.length / 6) 1)
  min count 128

/-- `Sockets::refreshAddressList()`.  The loop guard is transcribed as in
the source: `socketExists = psc > i` and `addressExists = psc > (m_iterator + i)`
— note that the source compares `m_iterator + i` against the pool size
`psc`, not against the address-list length (`sendToRobot` uses
`addressList().count() > (m_iterator + i)` for the analogous guard). -/
def refreshAddressList (s : SocketsState) : SocketsState :=
  if s.robotIp = "" ∧ s.robotIpList ≠ [] then
    let it : Nat :=
      if s.robotIpList.length > s.iterator + socketCount s then
        s.iterator + socketCount s
      else 0
    let psc := s.pool.length
    let pool := (List.range psc).map (fun i =>
      if psc > i ∧ psc > it + i then
        some (s.robotIpList.getD (it + i) "", s.robotInput)
      else s.pool.getD i none)
    { s with iterator := it, pool := pool }
  else s

/-- `Sockets::sendToRobot(data)`, as the list of `(address, port)`
destinations of the datagrams written during the call (the payload is
the argument itself for every destination). -/
def sendToRobot (s : SocketsState) : List (String × Int) :=
  if s.robotOutput = DISABLED_PORT then []
  else if s.robotSender ∧ s.robotIp ≠ "" then [(s.robotIp, s.robotOutput)]
  else
    (List.range (socketCount s)).filterMap (fun i =>
      if socketCount s > i ∧ s.robotIpList.length > s.iterator + i then
        some (s.robotIpList.getD (s.iterator + i) "", s.robotOutput)
      else none)

/-- `Sockets::setRobotAddress(ip)` (the `connectToHost` on the single
sender does not change any state the claims mention). -/
def setRobotAddress (s : SocketsState) (ip : String) : SocketsState :=
  if s.robotIp ≠ ip then { s with robotIp := ip } else s

/-- `Sockets::readRobotSocket()` for a datagram `data` arriving from
source address `peer`; returns the new state and the payloads emitted
through `robotPacketReceived`. -/
def readRobotSocket (s : SocketsState) (data : List Int) (peer : String) :
    SocketsState × List (List Int) :=
  if data ≠ [] then
    (if s.robotIp = "" then setRobotAddress s peer else s, [data])
  else (s, [])

/-- `Sockets::clearSocketLists()`. -/
def clearSocketLists (s : SocketsState) : SocketsState :=
  { s with iterator := 0, pool := [] }

/-- `Sockets::generateSocketPairs()`: clear, then create `socketCount()`
fresh (sender, receiver) pairs; the fresh receivers start unbound. -/
def generateSocketPairs (s : SocketsState) : SocketsState :=
  let s := clearSocketLists s
  { s with pool := List.replicate (socketCount s) none }

/-- `Sockets::setRobotInputPort(port)`. -/
def setRobotInputPort (s : SocketsState) (port : Int) : SocketsState :=
  if s.robotInput ≠ port then { s with robotInput := port } else s

/-- `Sockets::setCustomSocketCount(count)`. -/
def setCustomSocketCount (s : SocketsState) (count : Int) : SocketsState :=
  if s.customSocketCount ≠ count then
    generateSocketPairs { s with customSocketCount := count }
  else s

/-- `QString::split(".")` with Qt's default `KeepEmptyParts`, over the
character list of the string (the library `splitOn` is not
kernel-reducible, so the split is spelled out). -/
def splitOnDot (cs : List Char) : List (List Char) :=
  match cs with
  | [] => [[]]
  | c :: rest =>
    let r := splitOnDot rest
    if c = '.' then [] :: r
    else (c :: r.headD []) :: r.tail

/-- The dotted-quad parts of a textual address, as strings. -/
def dotParts (ip : String) : List String :=
  (splitOnDot ip.toList).map (fun l => String.mk l)

/-- The inner body of the sweep for one address entry: split on `.`; if
four parts result, produce `A.B.C.i` for `i = 1 .. 254` (the source loop
is `for (int i = 1; i < 255; ++i)`). -/
def sweepEntry (e : AddressEntry) : List String :=
  let numbers := dotParts e.ipString
  if numbers.length = 4 then
    let base := numbers.getD 0 "" ++ "." ++ numbers.getD 1 "" ++ "."
                  ++ numbers.getD 2 "" ++ "."
    (List.range' 1 254).map (fun i => base ++ toString i)
  else []

/-- The entry loop of `generateLocalNetworkAddresses` for one interface.
The source uses `break` on a `127.0.0.1` or null entry, so the first such
entry ends the scan of that interface's remaining entries. -/
def scanEntries : List AddressEntry → List String
  | [] => []
  | e :: rest =>
    if e.ipString = "127.0.0.1" then []
    else if e.isNull then []
    else sweepEntry e ++ scanEntries rest

/-- `Sockets::generateLocalNetworkAddresses()`, parameterised by the
host's interface list (the result of `QNetworkInterface::allInterfaces()`):
append the sweep of every up-and-running interface to `m_robotIpList`,
append `127.0.0.1`, then regenerate the socket pairs. -/
def generateLocalNetworkAddresses (ifaces : List NetInterface)
    (s : SocketsState) : SocketsState :=
  let swept := ifaces.flatMap (fun itf =>
    if itf.isUp ∧ itf.isRunning then scanEntries itf.entries else [])
  generateSocketPairs
    { s with robotIpList := s.robotIpList ++ swept ++ ["127.0.0.1"] }

/-- `Sockets::setAddressList(list)`: clear and replace `m_robotIpList`,
then `generateLocalNetworkAddresses()`. -/
def setAddressList (ifaces : List NetInterface) (s : SocketsState)
    (list : List String) : SocketsState :=
  generateLocalNetworkAddresses ifaces { s with robotIpList := list }

/-- The `Sockets` operations that are not the explicit peer-address
setters; used to express "the robot IP does not change without an
explicit setter call". -/
inductive SockOp where
  | refresh : SockOp
  | readRobot (data : List Int) (peer : String) : SockOp
  | clearSockets : SockOp
  | setInputPort (port : Int) : SockOp
  | setCustomCount (count : Int) : SockOp
  | setAddresses (ifaces : List NetInterface) (list : List String) : SockOp

/-- Apply one non-setter operation to the socket-manager state. -/
def applyOp (s : SocketsState) : SockOp → SocketsState
  | .refresh => refreshAddressList s
  | .readRobot d p => (readRobotSocket s d p).1
  | .clearSockets => clearSocketLists s
  | .setInputPort p => setRobotInputPort s p
  | .setCustomCount c => setCustomSocketCount s c
  | .setAddresses ifs l => setAddressList ifs s l

/-- Apply a sequence of non-setter operations, oldest first. -/
def applyOps (s : SocketsState) (ops : List SockOp) : SocketsState :=
  ops.foldl applyOp s

/-- The `Sockets` constructor state: `m_robotIpList = QStringList("")`
is a list holding one empty string, every port `DISABLED_PORT`, no
sockets yet. -/
def socketsInit : SocketsState :=
  { iterator := 0, customSocketCount := 0, robotIp := "",
    robotIpList := [""], robotInput := DISABLED_PORT,
    robotOutput := DISABLED_PORT, robotSender := false, pool := [] }

/-- The state of the spec's discovery scenario: three candidate
addresses, a custom socket count of 2 (hence a two-slot pool, still
unbound), robot ports set, robot address unknown. -/
def scanState3x2 : SocketsState :=
  { iterator := 0, customSocketCount := 2, robotIp := "",
    robotIpList := ["10.0.0.1", "10.0.0.2", "10.0.0.3"],
    robotInput := 1150, robotOutput := 1110, robotSender := true,
    pool := [none, none] }

/-- C1: at the spec's discovery scenario (`|AddressList| = 3`,
`socketCount = 2`, `iter` freshly advanced from 0 to 2), the cursor does
advance to 2, but pool slot 0 is NOT re-bound to `AddressList[2]`:
because the source guards the re-bind with `psc > (m_iterator + i)`
(pool size) instead of the address-list length, both slots keep their
previous (unbound) state, against the claim that slot 0 re-binds to the
third address. -/
theorem C1_refresh_skips_rebinding :
    (refreshAddressList scanState3x2).iterator = 2 ∧
    (refreshAddressList scanState3x2).pool = [none, none] ∧
    scanState3x2.robotIpList.getD 2 "" = "10.0.0.3" ∧
    2 + 0 < scanState3x2.robotIpList.length := by decide

theorem applyOp_robotIp (s : SocketsState) (op : SockOp) (h : s.robotIp ≠ "") :
    (applyOp s op).robotIp = s.robotIp := by
  cases op <;>
    simp only [applyOp, refreshAddressList, readRobotSocket, clearSocketLists,
      setRobotInputPort, setCustomSocketCount, generateSocketPairs,
      setAddressList, generateLocalNetworkAddresses, setRobotAddress] <;>
    split <;> simp_all

theorem applyOp_robotSender (s : SocketsState) (op : SockOp) :
    (applyOp s op).robotSender = s.robotSender := by
  cases op <;>
    simp only [applyOp, refreshAddressList, readRobotSocket, clearSocketLists,
      setRobotInputPort, setCustomSocketCount, generateSocketPairs,
      setAddressList, generateLocalNetworkAddresses, setRobotAddress] <;>
    split <;> (try split) <;> (try split) <;> simp_all

theorem applyOp_robotOutput (s : SocketsState) (op : SockOp) :
    (applyOp s op).robotOutput = s.robotOutput := by
  cases op <;>
    simp only [applyOp, refreshAddressList, readRobotSocket, clearSocketLists,
      setRobotInputPort, setCustomSocketCount, generateSocketPairs,
      setAddressList, generateLocalNetworkAddresses, setRobotAddress] <;>
    split <;> (try split) <;> (try split) <;> simp_all

/-- Once the robot IP is non-empty, no non-setter operation changes it,
nor the existence of the single robot sender, nor the output port. -/
theorem applyOps_frame (s : SocketsState) (ops : List SockOp)
    (h : s.robotIp ≠ "") :
    (applyOps s ops).robotIp = s.robotIp ∧
    (applyOps s ops).robotSender = s.robotSender ∧
    (applyOps s ops).robotOutput = s.robotOutput := by
  induction ops generalizing s with
  | nil => exact ⟨rfl, rfl, rfl⟩
  | cons op rest ih =>
    have h1 := applyOp_robotIp s op h
    have h2 := applyOp_robotSender s op
    have h3 := applyOp_robotOutput s op
    have hrec := ih (applyOp s op) (by rw [h1]; exact h)
    simp only [applyOps, List.foldl_cons] at hrec ⊢
    exact ⟨hrec.1.trans h1, hrec.2.1.trans h2, hrec.2.2.trans h3⟩

/-- C5: with three addresses and `socketCount = 2`, the claim promises
every address bound to some receiver within `⌈3/2⌉ = 2` refreshes; but
the first refresh binds nothing (the `psc > (m_iterator + i)` guard
fails for every slot once `iter = 2`), the second binds only the first
two addresses, and `10.0.0.3` is never the binding of any slot. -/
theorem C5_third_address_never_bound :
    (refreshAddressList scanState3x2).pool = [none, none] ∧
    (refreshAddressList (refreshAddressList scanState3x2)).pool =
      [some ("10.0.0.1", 1150), some ("10.0.0.2", 1150)] ∧
    (∀ b ∈ (refreshAddressList scanState3x2).pool ++
        (refreshAddressList (refreshAddressList scanState3x2)).pool,
      b ≠ some ("10.0.0.3", 1150)) := by decide

/-- A state in which the single robot sender socket was never created
(`m_robotSender` is still the constructor's null), but the ports and the
candidate list are configured. -/
def noSenderState : SocketsState :=
  { iterator := 0, customSocketCount := 1, robotIp := "",
    robotIpList := ["10.0.0.1"], robotInput := 1150, robotOutput := 1110,
    robotSender := false, pool := [none] }

/-- C2 counterexample: with the single robot sender absent (null), a
`sendToRobot` call AFTER `setRobotAddress("10.0.0.9")` still falls back
to the parallel fan-out and transmits to `10.0.0.1 ≠ 10.0.0.9`: the
source guard is `m_robotSender && !robotAddress().isEmpty()`, so a null
sender sends through the pool even when the robot IP is locked. -/
theorem C2_counterexample :
    (setRobotAddress noSenderState "10.0.0.9").robotIp = "10.0.0.9" ∧
    (setRobotAddress noSenderState "10.0.0.9").robotOutput ≠ DISABLED_PORT ∧
    sendToRobot (setRobotAddress noSenderState "10.0.0.9") =
      [("10.0.0.1", 1110)] ∧
    ("10.0.0.1" : String) ≠ "10.0.0.9" := by decide

/-- C2 (amended): provided the single robot sender socket exists, after
`setRobotAddress(ip)` with non-empty `ip` every subsequent `sendToRobot`
call — across any sequence of non-setter operations — with the robot
output port enabled transmits exactly once, to `ip` on the robot output
port, and never falls back to the parallel fan-out. -/
theorem C2_locked_unicast (s : SocketsState) (ip : String) (ops : List SockOp)
    (hip : ip ≠ "") (hsend : s.robotSender = true)
    (hport : (applyOps (setRobotAddress s ip) ops).robotOutput ≠ DISABLED_PORT) :
    sendToRobot (applyOps (setRobotAddress s ip) ops) =
      [(ip, (applyOps (setRobotAddress s ip) ops).robotOutput)] := by
  have hset : (setRobotAddress s ip).robotIp = ip := by
    unfold setRobotAddress; split <;> simp_all
  have hsender : (setRobotAddress s ip).robotSender = s.robotSender := by
    unfold setRobotAddress; split <;> rfl
  have hf := applyOps_frame (setRobotAddress s ip) ops (by rw [hset]; exact hip)
  unfold sendToRobot
  rw [if_neg hport,
    if_pos ⟨by rw [hf.2.1, hsender, hsend], by rw [hf.1, hset]; exact hip⟩,
    hf.1, hset]

theorem C2_locked_unicast_witness :
    sendToRobot (applyOps
        (setRobotAddress { noSenderState with robotSender := true } "10.0.0.9")
        [SockOp.refresh]) =
      [("10.0.0.9",
        (applyOps
          (setRobotAddress { noSenderState with robotSender := true } "10.0.0.9")
          [SockOp.refresh]).robotOutput)] :=
  C2_locked_unicast { noSenderState with robotSender := true } "10.0.0.9"
    [SockOp.refresh] (by decide) rfl (by decide)

/-- C6: the first non-empty robot datagram received while the robot IP
is empty sets the robot IP to the datagram's source address and emits
exactly that payload through `robotPacketReceived`; afterwards no
non-setter operation (including further datagrams) changes the robot
IP. -/
theorem C6_acquisition (s : SocketsState) (data : List Int) (peer : String)
    (ops : List SockOp) (hip : s.robotIp = "") (hdata : data ≠ [])
    (hpeer : peer ≠ "") :
    (readRobotSocket s data peer).1.robotIp = peer ∧
    (readRobotSocket s data peer).2 = [data] ∧
    (applyOps (readRobotSocket s data peer).1 ops).robotIp = peer := by
  have h1 : (readRobotSocket s data peer).1.robotIp = peer := by
    unfold readRobotSocket setRobotAddress
    rw [if_pos hdata, if_pos hip]
    simp only
    rw [if_pos (by rw [hip]; exact fun he => hpeer he.symm)]
  refine ⟨h1, ?_, ?_⟩
  · unfold readRobotSocket; rw [if_pos hdata]
  · exact ((applyOps_frame _ ops (by rw [h1]; exact hpeer)).1).trans h1

theorem C6_acquisition_witness :
    (readRobotSocket socketsInit [7] "10.0.0.3").1.robotIp = "10.0.0.3" ∧
    (readRobotSocket socketsInit [7] "10.0.0.3").2 = [[7]] ∧
    (applyOps (readRobotSocket socketsInit [7] "10.0.0.3").1
      [SockOp.refresh, SockOp.readRobot [9] "10.0.0.7"]).robotIp =
      "10.0.0.3" :=
  C6_acquisition socketsInit [7] "10.0.0.3"
    [SockOp.refresh, SockOp.readRobot [9] "10.0.0.7"]
    rfl (by decide) (by decide)

/-- An up-and-running interface whose FIRST address entry is the
loopback address and whose second is an ordinary LAN address. -/
def loopbackFirstIface : NetInterface :=
  { isUp := true, isRunning := true,
    entries := [{ ipString := "127.0.0.1", isNull := false },
                { ipString := "10.0.0.5", isNull := false }] }

/-- C7 counterexample: the interface is up and running, its second entry
`10.0.0.5` is neither null nor `127.0.0.1` and splits into four octets,
so the claim requires `10.0.0.1 … 10.0.0.254` in the resulting list; but
the source `break`s at the first loopback entry and skips the rest of
the interface's entries, so the list is just the final `127.0.0.1`. -/
theorem C7_counterexample :
    (setAddressList [loopbackFirstIface] socketsInit []).robotIpList =
      ["127.0.0.1"] ∧
    "10.0.0.1" ∉ (setAddressList [loopbackFirstIface] socketsInit []).robotIpList ∧
    loopbackFirstIface.isUp = true ∧
    loopbackFirstIface.isRunning = true ∧
    (loopbackFirstIface.entries.getD 1 ⟨"", true⟩).ipString ≠ "127.0.0.1" ∧
    (loopbackFirstIface.entries.getD 1 ⟨"", true⟩).isNull = false ∧
    (dotParts
      (loopbackFirstIface.entries.getD 1 ⟨"", true⟩).ipString).length = 4 := by
  decide

/-- The sweep's per-entry guard as a predicate: the entry is neither the
loopback address nor null. -/
def entryOk (e : AddressEntry) : Bool :=
  e.ipString != "127.0.0.1" && !e.isNull

theorem scanEntries_eq_takeWhile (es : List AddressEntry) :
    scanEntries es = (es.takeWhile entryOk).flatMap sweepEntry := by
  induction es with
  | nil => rfl
  | cons e rest ih =>
    by_cases h1 : e.ipString = "127.0.0.1"
    · simp [scanEntries, entryOk, h1, List.takeWhile_cons]
    · by_cases h2 : e.isNull
      · simp [scanEntries, entryOk, h1, h2, List.takeWhile_cons]
      · simp [scanEntries, entryOk, h1, h2, List.takeWhile_cons, ih]

/-- C7 (amended): replacing the address list appends, for every
up-and-running interface, the 254 addresses `A.B.C.1 … A.B.C.254` for
each four-part entry among the entries BEFORE that interface's first
null or `127.0.0.1` entry (the source `break` ends the scan of the
remaining entries of that interface), and after all interfaces appends
`127.0.0.1`. -/
theorem C7_sweep_truncated (ifaces : List NetInterface) (s : SocketsState)
    (list : List String) :
    (setAddressList ifaces s list).robotIpList =
      list ++ (ifaces.flatMap (fun itf =>
        if itf.isUp ∧ itf.isRunning then
          (itf.entries.takeWhile entryOk).flatMap sweepEntry
        else [])) ++ ["127.0.0.1"] := by
  unfold setAddressList generateLocalNetworkAddresses generateSocketPairs
    clearSocketLists
  simp [scanEntries_eq_takeWhile]

/-! ## DS_Protocol2015.cpp — the 2015 protocol codec -/

/-- Modelled from the spec: the numeric values of the protocol constants
(the `SectionHeaders`, `OperationModes`, `Alliances`, `RobotStatus` and
`ProgramStatus` bytes, the `DS_ControlMode` and `DS_Alliance`
enumerators, and the `RobotData` byte offsets) are declared in headers
that are not among the sources; the embedding is parametric in them.
The spec fixes only their roles: the offsets address fixed bytes of an
inbound packet of minimum length 8, and `noProgram` is the
`ProgramStatus::NoProgram` byte compared against the status byte. -/
structure ProtoEnv where
  generalHeader : Int
  joystickHeader : Int
  ctlTest : Int
  ctlTeleOp : Int
  ctlDisabled : Int
  ctlAutonomous : Int
  ctlEStop : Int
  opTest : Int
  opTeleOp : Int
  opDisabled : Int
  opAutonomous : Int
  opEStop : Int
  alRed1 : Int
  alRed2 : Int
  alRed3 : Int
  alBlue1 : Int
  alBlue2 : Int
  alBlue3 : Int
  bRed1 : Int
  bRed2 : Int
  bRed3 : Int
  bBlue1 : Int
  bBlue2 : Int
  bBlue3 : Int
  statusNormal : Int
  voltageMajor : Nat
  voltageMinor : Nat
  robotStatusOff : Nat
  controlEcho : Nat
  noProgram : Int

/-- A `DS_Joystick` snapshot: counts as C++ `int`, axis readings as
exact rationals standing for the source floats (all claim-relevant
values are integral), buttons as booleans, POV hats as `int`. -/
structure DS_Joystick where
  numAxes : Int
  numButtons : Int
  numPovHats : Int
  axes : List ℚ
  buttons : List Bool
  povHats : List Int
deriving DecidableEq, Repr

/-- The mutable protocol state of a `DS_Protocol2015` object:
`m_index`, `m_justConnected`, `m_status`, the cached control mode
`p_controlMode` (embedded as its underlying integer), the robot-code
cache `p_robotCode`, the current alliance and the external joystick
snapshot list. -/
structure ProtoState where
  index : Nat
  justConnected : Bool
  status : Int
  controlMode : Int
  robotCode : Bool
  alliance : Int
  joysticks : List DS_Joystick
deriving DecidableEq, Repr

/-- The C++ `int → char` conversion applied by `QByteArray::append`:
reduce modulo 256 into the signed byte range `[-128, 127]`. -/
def asChar (n : Int) : Int :=
  let r := n % 256
  if r ≥ 128 then r - 256 else r

/-- The C++ float-to-integer conversion (truncation towards zero) on an
exact rational. -/
def ratTrunc (q : ℚ) : Int := Int.tdiv q.num q.den

/-- `DS_Protocol2015::reset()`: `m_index = 0`, `m_justConnected = false`,
`m_status = RobotStatus::Normal`, `setControlMode(DS_ControlDisabled)`
(the base-class setter stores the mode in `p_controlMode`). -/
def reset (env : ProtoEnv) (s : ProtoState) : ProtoState :=
  { s with index := 0, justConnected := false, status := env.statusNormal,
           controlMode := env.ctlDisabled }

/-- `DS_Protocol2015::getControlCode(mode)`: the five-way switch with
`OperationModes::Disabled` as the fallback for an unknown mode. -/
def getControlCode (env : ProtoEnv) (mode : Int) : Int :=
  if mode = env.ctlTest then env.opTest
  else if mode = env.ctlTeleOp then env.opTeleOp
  else if mode = env.ctlDisabled then env.opDisabled
  else if mode = env.ctlAutonomous then env.opAutonomous
  else if mode = env.ctlEStop then env.opEStop
  else env.opDisabled

/-- `DS_Protocol2015::getAllianceCode(alliance)`: the six-way switch
with `Alliances::Red1` as the fallback. -/
def getAllianceCode (env : ProtoEnv) (al : Int) : Int :=
  if al = env.alRed1 then env.bRed1
  else if al = env.alRed2 then env.bRed2
  else if al = env.alRed3 then env.bRed3
  else if al = env.alBlue1 then env.bBlue1
  else if al = env.alBlue2 then env.bBlue2
  else if al = env.alBlue3 then env.bBlue3
  else env.bRed1

/-- `DS_Protocol2015::getJoystickSize(joystick)`, with the source's
truncating `int` division and remainder. -/
def getJoystickSize (j : DS_Joystick) : Int :=
  5 + (if j.numAxes > 0 then j.numAxes else 0)
    + Int.tdiv j.numButtons 8
    + (if Int.tmod j.numButtons 8 = 0 then 0 else 1)
    + (if j.numPovHats > 0 then j.numPovHats * 2 else 0)

/-- The value of one packed byte: the first bit of the chunk is the
least significant bit. -/
def byteOfBits (bits : List Bool) : Int :=
  bits.foldr (fun b acc => (if b then 1 else 0) + 2 * acc) 0

/-- Modelled from the spec: `bitsToBytes` (declared outside the given
sources) packs the button bit array LSB-first into `ceil(n/8)` bytes. -/
def bitsToBytes (bits : List Bool) : List Int :=
  if h : bits = [] then []
  else byteOfBits (bits.take 8) :: bitsToBytes (bits.drop 8)
termination_by bits.length
decreasing_by
  have : 0 < bits.length := List.length_pos.mpr h
  simp [List.length_drop]
  omega

theorem bitsToBytes_length (bits : List Bool) :
    (bitsToBytes bits).length = (bits.length + 7) / 8 := by
  unfold bitsToBytes
  split
  · simp [*]
  · have h1 : 0 < bits.length := List.length_pos.mpr (by assumption)
    have ih := bitsToBytes_length (bits.drop 8)
    rw [List.length_cons, ih, List.length_drop]
    omega
termination_by bits.length
decreasing_by
  have : 0 < bits.length := List.length_pos.mpr (by assumption)
  simp [List.length_drop]
  omega

/-- `DS_Protocol2015::generateJoystickData()`: for each joystick, the
leading size byte, the section header, the axis block, the button block
(a `QBitArray` of `numButtons` bits packed to bytes) and the POV-hat
block.  The hat block appends `array.at(0)` of a 1-byte resized array —
an uninitialised byte, embedded as 0 — followed by the hat value. -/
def generateJoystickData (env : ProtoEnv) (js : List DS_Joystick) : List Int :=
  js.flatMap (fun j =>
    [asChar (getJoystickSize j), asChar env.joystickHeader, asChar j.numAxes]
    ++ (List.range j.numAxes.toNat).map (fun axis =>
          asChar (ratTrunc (j.axes.getD axis 0 * 127)))
    ++ [asChar j.numButtons]
    ++ bitsToBytes ((List.range j.numButtons.toNat).map (fun b =>
          j.buttons.getD b false))
    ++ [asChar j.numPovHats]
    ++ (List.range j.numPovHats.toNat).flatMap (fun hat =>
          [0, asChar (j.povHats.getD hat 0)]))

/-- The ping-index update at the top of `generateClientPacket`:
`m_index += 1; if (m_index >= 0xffff) m_index = 0;`. -/
def stepIndex (n : Nat) : Nat := if n + 1 ≥ 0xffff then 0 else n + 1

/-- Modelled from the spec: `DS_PingData::generatePingData` (declared
outside the given sources) splits the ping index big-endian into bytes
0 and 1 of the packet — this is the high byte. -/
def pingByte1 (n : Nat) : Int := (n : Int) / 256

/-- Modelled from the spec: the low byte of the ping index. -/
def pingByte2 (n : Nat) : Int := (n : Int) % 256

/-- `DS_Protocol2015::generateClientPacket()`: advance the ping index,
then assemble ping bytes, general header, control code, status byte,
alliance code, and — only in tele-operated mode — the joystick data. -/
def generateClientPacket (env : ProtoEnv) (s : ProtoState) :
    ProtoState × List Int :=
  let idx := stepIndex s.index
  let data :=
    [pingByte1 idx, pingByte2 idx, asChar env.generalHeader,
     asChar (getControlCode env s.controlMode), asChar s.status,
     asChar (getAllianceCode env s.alliance)]
    ++ (if s.controlMode = env.ctlTeleOp then generateJoystickData env s.joysticks
        else [])
  ({ s with index := idx }, data)

/-- The signals a `DS_Protocol2015` object emits while decoding an
inbound packet, plus the one-shot call into the version download. -/
inductive ProtoEvent where
  | voltageChanged (v : ℚ)
  | codeChanged (b : Bool)
  | controlModeChanged (m : Int)
  | downloadRobotInformation
deriving DecidableEq, Repr

/-- `DS_Protocol2015::readRobotData(data)`.  Faithful to the source:
the minor voltage byte is divided by 100 with INTEGER division before
the conversion to `double`; the robot-code cache is updated on a code
change, but `p_controlMode` is NOT updated when the echoed control mode
differs; `m_justConnected` latches once and triggers the download. -/
def readRobotData (env : ProtoEnv) (s : ProtoState) (data : List Int) :
    ProtoState × List ProtoEvent :=
  if data ≠ [] ∧ 8 ≤ data.length then
    let major : ℚ := (data.getD env.voltageMajor 0 : Int)
    let minor : ℚ := (Int.tdiv (data.getD env.voltageMinor 0) 100 : Int)
    let e1 : List ProtoEvent := [ProtoEvent.voltageChanged (major + minor)]
    let code : Bool := data.getD env.robotStatusOff 0 != env.noProgram
    let s2 := if s.robotCode ≠ code then { s with robotCode := code } else s
    let e2 : List ProtoEvent :=
      if s.robotCode ≠ code then [ProtoEvent.codeChanged code] else []
    let mode := data.getD env.controlEcho 0
    let e3 : List ProtoEvent :=
      if s.controlMode ≠ mode then [ProtoEvent.controlModeChanged mode] else []
    let s4 := if ¬s2.justConnected then { s2 with justConnected := true } else s2
    let e4 : List ProtoEvent :=
      if ¬s2.justConnected then [ProtoEvent.downloadRobotInformation] else []
    (s4, e1 ++ e2 ++ e3 ++ e4)
  else (s, [])

/-- The state transformer of one `generateClientPacket` call. -/
def packetStep (env : ProtoEnv) (s : ProtoState) : ProtoState :=
  (generateClientPacket env s).1

theorem packetStep_index (env : ProtoEnv) (s : ProtoState) :
    (packetStep env s).index = stepIndex s.index := rfl

theorem packetStep_iterate_index (env : ProtoEnv) (n : Nat) (s : ProtoState) :
    ((packetStep env)^[n] s).index = stepIndex^[n] s.index := by
  induction n generalizing s with
  | zero => rfl
  | succ n ih =>
    rw [Function.iterate_succ_apply, Function.iterate_succ_apply, ih]
    rfl

theorem stepIndex_iterate (n : Nat) (h : n < 0xffff) :
    stepIndex^[n] 0 = n := by
  induction n with
  | zero => rfl
  | succ n ih =>
    rw [Function.iterate_succ_apply', ih (by omega)]
    unfold stepIndex
    rw [if_neg (by omega)]

/-- An arbitrary concrete instantiation of the protocol constants, for
the concrete counterexamples and witnesses (none of their statements
depends on the chosen values). -/
def env0 : ProtoEnv :=
  { generalHeader := 1, joystickHeader := 12,
    ctlTest := 20, ctlTeleOp := 21, ctlDisabled := 22, ctlAutonomous := 23,
    ctlEStop := 24,
    opTest := 30, opTeleOp := 31, opDisabled := 32, opAutonomous := 33,
    opEStop := 34,
    alRed1 := 40, alRed2 := 41, alRed3 := 42, alBlue1 := 43, alBlue2 := 44,
    alBlue3 := 45,
    bRed1 := 50, bRed2 := 51, bRed3 := 52, bBlue1 := 53, bBlue2 := 54,
    bBlue3 := 55,
    statusNormal := 0,
    voltageMajor := 1, voltageMinor := 2, robotStatusOff := 3,
    controlEcho := 4, noProgram := 0 }

/-- The protocol state right after construction (`reset()` applied to
an arbitrary pre-state). -/
def proto0 : ProtoState :=
  reset env0 { index := 0, justConnected := false, status := 0,
               controlMode := 0, robotCode := false, alliance := 40,
               joysticks := [] }

/-- C3 counterexample: starting from `reset()`, the ping index carried
after 65534 packets is 0xFFFE, and the very next `generateClientPacket`
call carries index 0 — whose bytes 0-1 are `[0, 0]` — not
0xFFFF = (0xFFFE + 1) mod 0x10000.  The counter wraps with period
0xFFFF (65535) and never carries 0xFFFF, so consecutive packets do not
differ by 1 modulo 0x10000 at the top of the range. -/
theorem C3_counterexample :
    ((packetStep env0)^[65534] proto0).index = 65534 ∧
    ((packetStep env0)^[65535] proto0).index = 0 ∧
    (generateClientPacket env0 ((packetStep env0)^[65534] proto0)).2.take 2 =
      [0, 0] ∧
    (65534 + 1) % 65536 = 65535 ∧ (0 : Nat) ≠ 65535 := by
  have h0 : proto0.index = 0 := rfl
  have h1 : ((packetStep env0)^[65534] proto0).index = 65534 := by
    rw [packetStep_iterate_index, h0, stepIndex_iterate 65534 (by omega)]
  have h2 : ((packetStep env0)^[65535] proto0).index = 0 := by
    rw [packetStep_iterate_index, h0, Function.iterate_succ_apply',
      stepIndex_iterate 65534 (by omega)]
    decide
  refine ⟨h1, h2, ?_, by norm_num, by norm_num⟩
  unfold generateClientPacket
  simp only [h1]
  rw [show stepIndex 65534 = 0 from by decide]
  simp only [List.cons_append, List.take_succ_cons, List.take_zero]
  norm_num [pingByte1, pingByte2]

/-- C3 (amended): across consecutive `generateClientPacket` calls the
carried ping index increases by exactly 1 modulo 0xFFFF (65535), hence
stays in `[0, 0xFFFE]`: at the top of its range it follows
0xFFFD → 0xFFFE → 0 and never carries 0xFFFF (a fortiori never
0x10000); it resets to 0 on `reset()`. -/
theorem C3_index_mod_ffff (env : ProtoEnv) (s : ProtoState)
    (h : s.index < 0xffff) :
    (packetStep env s).index = (s.index + 1) % 0xffff ∧
    (packetStep env s).index < 0xffff ∧
    (reset env s).index = 0 := by
  rw [packetStep_index]
  unfold stepIndex
  refine ⟨?_, ?_, rfl⟩ <;> split <;> omega

theorem C3_index_mod_ffff_witness :
    (packetStep env0 proto0).index = (proto0.index + 1) % 0xffff ∧
    (packetStep env0 proto0).index < 0xffff ∧
    (reset env0 proto0).index = 0 :=
  C3_index_mod_ffff env0 proto0 (by decide)

/-- C4: the source divides the minor voltage byte by 100 with INTEGER
division before the conversion to `double`, so an inbound packet of
length 8 carrying major byte 12 and minor byte 34 makes `readRobotData`
emit `voltageChanged 12` — not the claimed `12 + 34/100 = 12.34`. -/
theorem C4_minor_centivolts_lost (env : ProtoEnv) (s : ProtoState)
    (data : List Int) (hlen : data.length = 8)
    (hmaj : data.getD env.voltageMajor 0 = 12)
    (hmin : data.getD env.voltageMinor 0 = 34) :
    (readRobotData env s data).2.head? =
      some (ProtoEvent.voltageChanged 12) ∧
    (12 : ℚ) ≠ 12 + 34 / 100 := by
  have hne : data ≠ [] := by
    intro he; rw [he] at hlen; exact absurd hlen (by decide)
  constructor
  · unfold readRobotData
    rw [if_pos ⟨hne, by omega⟩]
    simp only [hmaj, hmin]
    rw [show Int.tdiv 34 100 = 0 from by decide]
    simp
  · norm_num

/-- An 8-byte inbound packet whose `env0` voltage bytes are 12 and 34. -/
def voltData : List Int := [0, 12, 34, 0, 0, 0, 0, 0]

theorem C4_minor_centivolts_lost_witness :
    (readRobotData env0 proto0 voltData).2.head? =
      some (ProtoEvent.voltageChanged 12) ∧
    (12 : ℚ) ≠ 12 + 34 / 100 :=
  C4_minor_centivolts_lost env0 proto0 voltData rfl rfl rfl

/-- The effect of `readRobotData` on a packet of length ≥ 8, in closed
form: the robot-code cache takes the decoded flag, the `justConnected`
latch is set, nothing else changes, and each signal is emitted under
exactly the source's condition. -/
theorem readRobotData_run (env : ProtoEnv) (s : ProtoState) (data : List Int)
    (hne : data ≠ []) (h8 : 8 ≤ data.length) :
    readRobotData env s data =
      ({ s with robotCode := data.getD env.robotStatusOff 0 != env.noProgram,
                justConnected := true },
       [ProtoEvent.voltageChanged
          (((data.getD env.voltageMajor 0 : Int) : ℚ) +
            ((Int.tdiv (data.getD env.voltageMinor 0) 100 : Int) : ℚ))]
       ++ (if s.robotCode ≠ (data.getD env.robotStatusOff 0 != env.noProgram)
           then [ProtoEvent.codeChanged
                  (data.getD env.robotStatusOff 0 != env.noProgram)]
           else [])
       ++ (if s.controlMode ≠ data.getD env.controlEcho 0
           then [ProtoEvent.controlModeChanged (data.getD env.controlEcho 0)]
           else [])
       ++ (if ¬s.justConnected then [ProtoEvent.downloadRobotInformation]
           else [])) := by
  unfold readRobotData
  rw [if_pos ⟨hne, h8⟩]
  by_cases hc : s.robotCode = (data.getD env.robotStatusOff 0 != env.noProgram) <;>
    by_cases hj : s.justConnected <;>
      simp_all <;>
      (try constructor) <;>
      (try cases s) <;> simp_all

/-- A protocol state whose cached control mode differs from the mode a
robot will echo back; the robot-code cache already matches and the
`justConnected` latch is already set. -/
def echoState : ProtoState :=
  { index := 0, justConnected := true, status := 0, controlMode := 22,
    robotCode := false, alliance := 40, joysticks := [] }

/-- An 8-byte inbound packet whose `env0` control-echo byte is 21 and
whose status byte equals `NoProgram`. -/
def echoData : List Int := [0, 0, 0, 0, 21, 0, 0, 0]

/-- C8 counterexample: `readRobotData` does not update `p_controlMode`
(and this packet changes no cached state at all), so feeding the SAME
packet twice — echoed mode 21 against cached mode 22 — emits
`controlModeChanged` in BOTH calls, violating the claim's "at most one
emission" bound for two consecutive identical packets. -/
theorem C8_counterexample :
    ProtoEvent.controlModeChanged 21 ∈
      (readRobotData env0 echoState echoData).2 ∧
    (readRobotData env0 echoState echoData).1 = echoState ∧
    ProtoEvent.controlModeChanged 21 ∈
      (readRobotData env0 (readRobotData env0 echoState echoData).1
        echoData).2 := by decide

/-- C8 (amended): `codeChanged` is edge-triggered — the decoder updates
the robot-code cache, so the second of two consecutive identical packets
emits no `codeChanged` at all; `controlModeChanged` is emitted exactly
when the echoed mode differs from the cached control mode, but
`readRobotData` does NOT update that cache, so the second identical
packet emits `controlModeChanged` again whenever the first did. -/
theorem C8_edge_triggering (env : ProtoEnv) (s : ProtoState)
    (data : List Int) (h8 : 8 ≤ data.length) :
    (ProtoEvent.codeChanged (data.getD env.robotStatusOff 0 != env.noProgram) ∈
        (readRobotData env s data).2 ↔
      s.robotCode ≠ (data.getD env.robotStatusOff 0 != env.noProgram)) ∧
    (∀ b : Bool, ProtoEvent.codeChanged b ∉
      (readRobotData env (readRobotData env s data).1 data).2) ∧
    ((readRobotData env s data).1.controlMode = s.controlMode) ∧
    (ProtoEvent.controlModeChanged (data.getD env.controlEcho 0) ∈
        (readRobotData env s data).2 ↔
      s.controlMode ≠ data.getD env.controlEcho 0) ∧
    (ProtoEvent.controlModeChanged (data.getD env.controlEcho 0) ∈
        (readRobotData env (readRobotData env s data).1 data).2 ↔
      s.controlMode ≠ data.getD env.controlEcho 0) := by
  have hne : data ≠ [] := by
    intro he; rw [he] at h8; exact absurd h8 (by decide)
  rw [readRobotData_run env s data hne h8]
  rw [readRobotData_run env _ data hne h8]
  refine ⟨?_, ?_, rfl, ?_, ?_⟩ <;>
    first
      | (intro b
         by_cases hm : s.controlMode = data.getD env.controlEcho 0 <;>
           simp [hm])
      | (by_cases hc :
            s.robotCode = (data.getD env.robotStatusOff 0 != env.noProgram) <;>
          by_cases hm : s.controlMode = data.getD env.controlEcho 0 <;>
          by_cases hj : s.justConnected <;>
            simp [hc, hm, hj])

theorem C8_edge_triggering_witness :
    (ProtoEvent.codeChanged
        (echoData.getD env0.robotStatusOff 0 != env0.noProgram) ∈
        (readRobotData env0 echoState echoData).2 ↔
      echoState.robotCode ≠
        (echoData.getD env0.robotStatusOff 0 != env0.noProgram)) ∧
    (∀ b : Bool, ProtoEvent.codeChanged b ∉
      (readRobotData env0 (readRobotData env0 echoState echoData).1
        echoData).2) ∧
    ((readRobotData env0 echoState echoData).1.controlMode =
      echoState.controlMode) ∧
    (ProtoEvent.controlModeChanged (echoData.getD env0.controlEcho 0) ∈
        (readRobotData env0 echoState echoData).2 ↔
      echoState.controlMode ≠ echoData.getD env0.controlEcho 0) ∧
    (ProtoEvent.controlModeChanged (echoData.getD env0.controlEcho 0) ∈
        (readRobotData env0 (readRobotData env0 echoState echoData).1
          echoData).2 ↔
      echoState.controlMode ≠ echoData.getD env0.controlEcho 0) :=
  C8_edge_triggering env0 echoState echoData (by decide)

/-- C9: for non-negative joystick counts, `getJoystickSize` equals
`5 + numAxes + ⌈numButtons/8⌉ + 2·numPovHats` (with
`⌈numButtons/8⌉ = (numButtons + 7) / 8`); it is the value written, as a
byte, at the head of the joystick block; and the packed button array
occupies exactly `(numButtons + 7) / 8` bytes. -/
theorem C9_joystick_size (env : ProtoEnv) (j : DS_Joystick)
    (ha : 0 ≤ j.numAxes) (hb : 0 ≤ j.numButtons) (hh : 0 ≤ j.numPovHats) :
    getJoystickSize j =
      5 + j.numAxes + (j.numButtons + 7) / 8 + 2 * j.numPovHats ∧
    (generateJoystickData env [j]).head? =
      some (asChar (getJoystickSize j)) ∧
    ((bitsToBytes ((List.range j.numButtons.toNat).map (fun b =>
        j.buttons.getD b false))).length : Int) = (j.numButtons + 7) / 8 := by
  refine ⟨?_, ?_, ?_⟩
  · unfold getJoystickSize
    rw [Int.tdiv_eq_ediv hb (by norm_num), Int.tmod_eq_emod hb (by norm_num)]
    split <;> split <;> split <;> omega
  · simp [generateJoystickData]
  · rw [bitsToBytes_length, List.length_map, List.length_range]
    omega

theorem C9_joystick_size_witness :
    getJoystickSize
        { numAxes := 1, numButtons := 3, numPovHats := 0,
          axes := [1], buttons := [true, false, true], povHats := [] } =
      5 + 1 + ((3 : Int) + 7) / 8 + 2 * 0 ∧
    (generateJoystickData env0
        [{ numAxes := 1, numButtons := 3, numPovHats := 0,
           axes := [1], buttons := [true, false, true], povHats := [] }]).head? =
      some (asChar (getJoystickSize
        { numAxes := 1, numButtons := 3, numPovHats := 0,
          axes := [1], buttons := [true, false, true], povHats := [] })) ∧
    ((bitsToBytes ((List.range (Int.toNat 3)).map (fun b =>
        [true, false, true].getD b false))).length : Int) = ((3 : Int) + 7) / 8 := by
  have h := C9_joystick_size env0
    { numAxes := 1, numButtons := 3, numPovHats := 0,
      axes := [1], buttons := [true, false, true], povHats := [] }
    (by decide) (by decide) (by decide)
  exact h

/-- C10: decoding an inbound packet is frame-preserving on the outbound
encoder state: `m_index`, `m_status` and `p_controlMode` (as well as the
alliance and the joystick reference) are unchanged; only the robot-code
cache and the `justConnected` latch may change; hence the bytes of a
subsequently generated client packet, and its ping-index advance, are
exactly what they would have been without the decode. -/
theorem C10_read_preserves_encoder (env : ProtoEnv) (s : ProtoState)
    (data : List Int) :
    (readRobotData env s data).1.index = s.index ∧
    (readRobotData env s data).1.status = s.status ∧
    (readRobotData env s data).1.controlMode = s.controlMode ∧
    (readRobotData env s data).1 =
      { s with robotCode := (readRobotData env s data).1.robotCode,
               justConnected := (readRobotData env s data).1.justConnected } ∧
    (generateClientPacket env (readRobotData env s data).1).2 =
      (generateClientPacket env s).2 ∧
    (generateClientPacket env (readRobotData env s data).1).1.index =
      (generateClientPacket env s).1.index := by
  have hcomp : (readRobotData env s data).1.index = s.index ∧
      (readRobotData env s data).1.status = s.status ∧
      (readRobotData env s data).1.controlMode = s.controlMode ∧
      (readRobotData env s data).1.alliance = s.alliance ∧
      (readRobotData env s data).1.joysticks = s.joysticks := by
    unfold readRobotData
    split
    · simp only
      split <;> split <;> simp
    · simp
  obtain ⟨h1, h2, h3, h4, h5⟩ := hcomp
  have heta : (readRobotData env s data).1 =
      { s with robotCode := (readRobotData env s data).1.robotCode,
               justConnected := (readRobotData env s data).1.justConnected } := by
    cases hr : (readRobotData env s data).1
    rw [hr] at h1 h2 h3 h4 h5
    cases s
    simp_all
  refine ⟨h1, h2, h3, heta, ?_, ?_⟩ <;>
    unfold generateClientPacket <;>
      simp [h1, h2, h3, h4, h5]

end LibDS
